import Mathlib

/-!
Shallow embedding of docs/conf.py (infocyph/InterMix documentation
configuration) and proofs about its version resolver.

The resolver get_version reads the process environment and possibly runs a
subprocess (git rev-parse --abbrev-ref HEAD).  We model:

* the environment as a function from variable names to optional values,
  mirroring os.environ.get;
* the subprocess outcome as Except Unit String, where Except.error ()
  models an exception raised during Popen / stdout.read (caught by the
  bare except), and Except.ok out models the text read from the child's
  stdout.  The Python code never inspects the exit status of the child,
  so the exit code is not part of the model; a failing command surfaces
  as empty stdout.
* Python str.strip() as pyStrip below: remove leading and trailing
  whitespace characters from the character list.
-/

namespace ConfPy

/-- Process environment: os.environ.get as a total map to optional values. -/
abbrev Env : Type := String → Option String

/-- Outcome of the branch query subprocess: an exception, or the stdout text. -/
abbrev GitOutcome : Type := Except Unit String

/-- The hosted-build arm of get_version (lines 12-15 of conf.py):
if os.environ.get("READTHEDOCS") == "True", read READTHEDOCS_VERSION and
keep it when it is truthy (a non-empty string); otherwise nothing. -/
def hostedValue (env : Env) : Option String :=
  if env "READTHEDOCS" = some "True" then
    match env "READTHEDOCS_VERSION" with
    | some v => if v = "" then none else some v
    | none => none
  else none

/-- Whitespace characters stripped by Python str.strip() (the ASCII ones:
space, tab, newline, carriage return, vertical tab, form feed). -/
def pyIsSpace (c : Char) : Bool :=
  c = ' ' || c = '\t' || c = '\n' || c = '\r' || c = '\x0B' || c = '\x0C'

/-- Python str.strip(): remove leading and trailing whitespace characters. -/
def pyStrip (s : String) : String :=
  String.mk (((s.data.dropWhile pyIsSpace).reverse.dropWhile pyIsSpace).reverse)

/-- The branch-query arm of get_version (lines 16-21 of conf.py):
on an exception return "latest"; otherwise strip the stdout text and
return it, or "latest" when the stripped text is empty. -/
def gitValue (git : GitOutcome) : String :=
  match git with
  | Except.error _ => "latest"
  | Except.ok out => if pyStrip out = "" then "latest" else pyStrip out

/-- get_version from conf.py: the hosted arm when it yields a value,
otherwise the branch-query arm. -/
def get_version (env : Env) (git : GitOutcome) : String :=
  match hostedValue env with
  | some v => v
  | none => gitValue git

/-- get_version instrumented with a trace of whether the subprocess was
actually spawned: the second component is some git exactly when control
reached the try block, and none when the hosted arm returned first. -/
def get_version_run (env : Env) (git : GitOutcome) : String × Option GitOutcome :=
  match hostedValue env with
  | some v => (v, none)
  | none => (gitValue git, some git)

/-- version = get_version() (line 23 of conf.py). -/
def version (env : Env) (git : GitOutcome) : String :=
  get_version env git

/-- release = version (line 24 of conf.py). -/
def release (env : Env) (git : GitOutcome) : String :=
  version env git

/-- html_title f-string (line 95 of conf.py). -/
def html_title (env : Env) (git : GitOutcome) : String :=
  "infocyph/InterMix " ++ version env git ++ " Manual"

/-- The html_context dictionary of conf.py (lines 110-116). -/
structure HtmlContext where
  display_github : Bool
  github_user : String
  github_repo : String
  github_version : String
  conf_py_path : String

/-- html_context assignment (lines 110-116 of conf.py). -/
def html_context (env : Env) (git : GitOutcome) : HtmlContext :=
  { display_github := false
  , github_user := "infocyph"
  , github_repo := "InterMix"
  , github_version := version env git
  , conf_py_path := "/docs/" }

/-- The instrumented resolver computes the same string as get_version. -/
theorem get_version_run_fst (env : Env) (git : GitOutcome) :
    (get_version_run env git).1 = get_version env git := by
  unfold get_version_run get_version
  cases hostedValue env <;> rfl

/-- hostedValue only ever holds a non-empty string. -/
theorem hostedValue_ne_empty (env : Env) (v : String)
    (h : hostedValue env = some v) : v ≠ "" := by
  unfold hostedValue at h
  by_cases hflag : env "READTHEDOCS" = some "True"
  · rw [if_pos hflag] at h
    cases hv : env "READTHEDOCS_VERSION" with
    | none => rw [hv] at h; exact absurd h (by simp)
    | some w =>
      rw [hv] at h
      dsimp only at h
      by_cases hw : w = ""
      · rw [if_pos hw] at h; exact absurd h (by simp)
      · rw [if_neg hw] at h
        cases h
        exact hw
  · rw [if_neg hflag] at h
    exact absurd h (by simp)

/-- gitValue is never the empty string. -/
theorem gitValue_ne_empty (git : GitOutcome) : gitValue git ≠ "" := by
  unfold gitValue
  match git with
  | Except.error e => simp
  | Except.ok out =>
    dsimp only
    by_cases h : pyStrip out = ""
    · rw [if_pos h]; simp
    · rw [if_neg h]; exact h

/-- When the flag holds "True" and the label is a non-empty string, the
hosted arm yields exactly that string. -/
theorem hostedValue_hosted (env : Env) (s : String)
    (h1 : env "READTHEDOCS" = some "True")
    (h2 : env "READTHEDOCS_VERSION" = some s)
    (h3 : s ≠ "") : hostedValue env = some s := by
  unfold hostedValue
  rw [h1, if_pos rfl, h2]
  dsimp only
  rw [if_neg h3]

/-- When the flag is anything but the exact string "True", the hosted arm
yields nothing. -/
theorem hostedValue_none_of_flag (env : Env)
    (h : env "READTHEDOCS" ≠ some "True") : hostedValue env = none := by
  unfold hostedValue
  rw [if_neg h]

/-- When the label variable is unset or empty, the hosted arm yields
nothing, whatever the flag holds. -/
theorem hostedValue_none_of_label (env : Env)
    (h : env "READTHEDOCS_VERSION" = none ∨ env "READTHEDOCS_VERSION" = some "") :
    hostedValue env = none := by
  unfold hostedValue
  by_cases hflag : env "READTHEDOCS" = some "True"
  · rw [if_pos hflag]
    cases h with
    | inl hnone => rw [hnone]
    | inr hempty => rw [hempty]; dsimp only; rw [if_pos rfl]
  · rw [if_neg hflag]

/-- When the hosted arm yields nothing, the resolver returns the
branch-query arm. -/
theorem get_version_of_hosted_none (env : Env) (git : GitOutcome)
    (h : hostedValue env = none) : get_version env git = gitValue git := by
  unfold get_version
  rw [h]

/-- When the hosted arm yields a value, the resolver returns it. -/
theorem get_version_of_hosted_some (env : Env) (git : GitOutcome) (s : String)
    (h : hostedValue env = some s) : get_version env git = s := by
  unfold get_version
  rw [h]

/-- Concrete environment: flag "True" and a given label value. -/
def envHosted (label : String) : Env :=
  fun k =>
    if k = "READTHEDOCS" then some "True"
    else if k = "READTHEDOCS_VERSION" then some label else none

/-- Concrete environment: flag "True", label variable unset. -/
def envFlagOnly : Env :=
  fun k => if k = "READTHEDOCS" then some "True" else none

/-- Concrete environment: nothing set. -/
def envEmpty : Env :=
  fun _ => none

/-- Concrete environment: flag holds lowercase "true", label set. -/
def envLowerTrue : Env :=
  fun k =>
    if k = "READTHEDOCS" then some "true"
    else if k = "READTHEDOCS_VERSION" then some "9.9" else none

/-- Concrete environment: only the label variable set, flag unset. -/
def envOnlyLabel (label : String) : Env :=
  fun k => if k = "READTHEDOCS_VERSION" then some label else none

/-- Claim C1: if the hosted-build flag READTHEDOCS is "True" and
READTHEDOCS_VERSION holds a non-empty string s, get_version returns
exactly s, whatever the branch query would have produced. -/
theorem hosted_label_returned (env : Env) (git : GitOutcome) (s : String)
    (h1 : env "READTHEDOCS" = some "True")
    (h2 : env "READTHEDOCS_VERSION" = some s)
    (h3 : s ≠ "") :
    get_version env git = s :=
  get_version_of_hosted_some env git s (hostedValue_hosted env s h1 h2 h3)

/-- Claim C1 witness: with READTHEDOCS="True" and READTHEDOCS_VERSION="stable",
get_version returns "stable" even when the branch query raises. -/
theorem hosted_label_returned_witness :
    envHosted "stable" "READTHEDOCS" = some "True" ∧
    envHosted "stable" "READTHEDOCS_VERSION" = some "stable" ∧
    "stable" ≠ "" ∧
    get_version (envHosted "stable") (Except.error ()) = "stable" :=
  ⟨by decide, by decide, by decide,
    hosted_label_returned (envHosted "stable") (Except.error ()) "stable"
      (by decide) (by decide) (by decide)⟩

/-- Claim C2 counterexample: with the flag set and the label variable unset,
the resolver does not return the fallback literal when the branch query
succeeds with "main\n": it returns "main". -/
theorem hosted_no_label_counterexample :
    envFlagOnly "READTHEDOCS" = some "True" ∧
    envFlagOnly "READTHEDOCS_VERSION" = none ∧
    get_version envFlagOnly (Except.ok "main\n") = "main" ∧
    get_version envFlagOnly (Except.ok "main\n") ≠ "latest" := by
  refine ⟨by decide, by decide, by decide, by decide⟩

/-- Claim C2 (amended): when hosted-build detection finds no usable value
(the label variable is unset or empty), the resolver falls through to the
branch query, and returns the fixed fallback literal "latest" exactly when
that query also yields no usable output (raises, or empty stdout). -/
theorem hosted_no_label_falls_back (env : Env) (git : GitOutcome)
    (h1 : env "READTHEDOCS_VERSION" = none ∨ env "READTHEDOCS_VERSION" = some "")
    (h2 : git = Except.error () ∨ git = Except.ok "") :
    get_version env git = "latest" := by
  rw [get_version_of_hosted_none env git (hostedValue_none_of_label env h1)]
  cases h2 with
  | inl he => subst he; rfl
  | inr hok => subst hok; unfold gitValue; dsimp only; rw [if_pos (by decide)]

/-- Claim C2 witness: flag "True", label unset, branch query yields empty
stdout; the resolver returns "latest". -/
theorem hosted_no_label_falls_back_witness :
    (envFlagOnly "READTHEDOCS_VERSION" = none ∨
      envFlagOnly "READTHEDOCS_VERSION" = some "") ∧
    ((Except.ok "" : GitOutcome) = Except.error () ∨
      (Except.ok "" : GitOutcome) = Except.ok "") ∧
    get_version envFlagOnly (Except.ok "") = "latest" :=
  ⟨Or.inl (by decide), Or.inr rfl,
    hosted_no_label_falls_back envFlagOnly (Except.ok "")
      (Or.inl (by decide)) (Or.inr rfl)⟩

/-- Claim C3: when the flag is unset and the branch query succeeds with
output that is non-empty after stripping, the resolver returns the output
with leading and trailing whitespace removed. -/
theorem unset_flag_branch_trimmed (env : Env) (out : String)
    (h1 : env "READTHEDOCS" = none)
    (h2 : pyStrip out ≠ "") :
    get_version env (Except.ok out) = pyStrip out := by
  rw [get_version_of_hosted_none env (Except.ok out)
    (hostedValue_none_of_flag env (by rw [h1]; exact fun h => Option.noConfusion h))]
  unfold gitValue
  dsimp only
  rw [if_neg h2]

/-- Claim C3 witness: with nothing in the environment and stdout
"  feature/x\n", the resolver returns "feature/x". -/
theorem unset_flag_branch_trimmed_witness :
    envEmpty "READTHEDOCS" = none ∧
    pyStrip "  feature/x\n" ≠ "" ∧
    pyStrip "  feature/x\n" = "feature/x" ∧
    get_version envEmpty (Except.ok "  feature/x\n") = "feature/x" := by
  refine ⟨rfl, by decide, by decide, ?_⟩
  rw [unset_flag_branch_trimmed envEmpty "  feature/x\n" rfl (by decide)]
  decide

/-- Claim C4: whenever the branch query is actually performed (the
instrumented resolver records it) and yields no usable output — an
exception was raised, or stdout is empty (the code never looks at the
exit status, so a failing or missing command surfaces as empty stdout) —
the resolver returns "latest". -/
theorem query_failure_latest (env : Env) (git : GitOutcome)
    (hrun : (get_version_run env git).2 = some git)
    (hbad : git = Except.error () ∨ git = Except.ok "") :
    get_version env git = "latest" := by
  unfold get_version_run at hrun
  cases h : hostedValue env with
  | some v =>
    rw [h] at hrun
    exact absurd hrun (by simp)
  | none =>
    rw [get_version_of_hosted_none env git h]
    cases hbad with
    | inl he => subst he; rfl
    | inr hok => subst hok; unfold gitValue; dsimp only; rw [if_pos (by decide)]

/-- Claim C4 witness: in an empty environment with a raised exception, the
query is performed and the resolver returns "latest". -/
theorem query_failure_latest_witness :
    (get_version_run envEmpty (Except.error ())).2 = some (Except.error ()) ∧
    ((Except.error () : GitOutcome) = Except.error () ∨
      (Except.error () : GitOutcome) = Except.ok "") ∧
    get_version envEmpty (Except.error ()) = "latest" :=
  ⟨rfl, Or.inl rfl,
    query_failure_latest envEmpty (Except.error ()) rfl (Or.inl rfl)⟩

/-- Claim C5: two environments that agree everywhere except possibly on
READTHEDOCS_VERSION, with the flag unset, make the resolver return the
same string for the same query outcome: the label variable is never read
when the flag is unset. -/
theorem label_not_read_when_flag_unset (env1 env2 : Env) (git : GitOutcome)
    (hagree : ∀ k, k ≠ "READTHEDOCS_VERSION" → env1 k = env2 k)
    (hflag : env1 "READTHEDOCS" = none) :
    get_version env1 git = get_version env2 git := by
  have hflag2 : env2 "READTHEDOCS" = none :=
    (hagree "READTHEDOCS" (by decide)).symm.trans hflag
  rw [get_version_of_hosted_none env1 git
    (hostedValue_none_of_flag env1 (by rw [hflag]; exact fun h => Option.noConfusion h))]
  rw [get_version_of_hosted_none env2 git
    (hostedValue_none_of_flag env2 (by rw [hflag2]; exact fun h => Option.noConfusion h))]

/-- Claim C5 witness: environments with labels "a" and "b" and the flag
unset give the same result on the same query outcome. -/
theorem label_not_read_when_flag_unset_witness :
    (∀ k, k ≠ "READTHEDOCS_VERSION" → envOnlyLabel "a" k = envOnlyLabel "b" k) ∧
    envOnlyLabel "a" "READTHEDOCS" = none ∧
    get_version (envOnlyLabel "a") (Except.ok "main") =
      get_version (envOnlyLabel "b") (Except.ok "main") :=
  ⟨fun k hk => by unfold envOnlyLabel; rw [if_neg hk, if_neg hk],
    by decide,
    label_not_read_when_flag_unset (envOnlyLabel "a") (envOnlyLabel "b")
      (Except.ok "main")
      (fun k hk => by unfold envOnlyLabel; rw [if_neg hk, if_neg hk])
      (by decide)⟩

/-- Claim C6: for every environment and every query outcome — success,
empty output, or a raised exception — get_version is a total function
returning a string, and that string is never empty: no error propagates
to the caller. -/
theorem resolver_total_nonempty (env : Env) (git : GitOutcome) :
    get_version env git ≠ "" := by
  unfold get_version
  cases h : hostedValue env with
  | some v => exact hostedValue_ne_empty env v h
  | none => exact gitValue_ne_empty git

/-- Claim C7: the HTML title is always the string
"infocyph/InterMix " ++ resolver result ++ " Manual". -/
theorem title_uses_resolver (env : Env) (git : GitOutcome) :
    html_title env git = "infocyph/InterMix " ++ get_version env git ++ " Manual" :=
  rfl

/-- Claim C8: the single resolver result is used for all three labels:
version, release, and html_context.github_version. -/
theorem single_version_everywhere (env : Env) (git : GitOutcome) :
    version env git = get_version env git ∧
    release env git = get_version env git ∧
    (html_context env git).github_version = get_version env git :=
  ⟨rfl, rfl, rfl⟩

/-- Claim C9: the flag is recognized only by exact string equality with
"True": for any other value (or unset), the resolver behaves exactly as
the branch-query arm. -/
theorem flag_exact_match_only (env : Env) (git : GitOutcome)
    (h : env "READTHEDOCS" ≠ some "True") :
    get_version env git = gitValue git :=
  get_version_of_hosted_none env git (hostedValue_none_of_flag env h)

/-- Claim C9 witness: with READTHEDOCS="true" (lowercase) and a label set,
the resolver ignores the label and returns the branch-query result "main". -/
theorem flag_exact_match_only_witness :
    envLowerTrue "READTHEDOCS" = some "true" ∧
    envLowerTrue "READTHEDOCS" ≠ some "True" ∧
    envLowerTrue "READTHEDOCS_VERSION" = some "9.9" ∧
    get_version envLowerTrue (Except.ok "main") = gitValue (Except.ok "main") ∧
    get_version envLowerTrue (Except.ok "main") = "main" := by
  refine ⟨by decide, by decide, by decide,
    flag_exact_match_only envLowerTrue (Except.ok "main") (by decide), ?_⟩
  decide

/-- Claim C10: the hosted label is returned verbatim, never trimmed: when
the flag is "True" and the label is a non-empty string with leading or
trailing whitespace (so that trimming would change it), the resolver still
returns it unchanged. -/
theorem hosted_label_not_trimmed (env : Env) (git : GitOutcome) (s : String)
    (h1 : env "READTHEDOCS" = some "True")
    (h2 : env "READTHEDOCS_VERSION" = some s)
    (h3 : s ≠ "")
    (h4 : pyStrip s ≠ s) :
    get_version env git = s :=
  get_version_of_hosted_some env git s (hostedValue_hosted env s h1 h2 h3)

/-- Claim C10 witness: the whitespace-only label " " is truthy in Python,
so the resolver returns " " itself, although trimming it would yield "". -/
theorem hosted_label_not_trimmed_witness :
    envHosted " " "READTHEDOCS" = some "True" ∧
    envHosted " " "READTHEDOCS_VERSION" = some " " ∧
    (" " : String) ≠ "" ∧
    pyStrip " " ≠ " " ∧
    get_version (envHosted " ") (Except.ok "main") = " " :=
  ⟨by decide, by decide, by decide, by decide,
    hosted_label_not_trimmed (envHosted " ") (Except.ok "main") " "
      (by decide) (by decide) (by decide) (by decide)⟩

end ConfPy
